import Mathlib

/-!
Shallow embedding of `src/models.py`: the `NearEarthObject` and
`CloseApproach` classes, their keyword-dictionary constructors, the
`append` linking helper, `serialize`, the `fullname` / `designation`
properties and the display (`__str__`) formatting.

Python raw values occurring in the NASA row dictionaries are modelled by
`PyVal` (strings, integers, booleans, `None`).  Python floats are
modelled by `PyFloat` (a rational value or the not-a-number sentinel);
the built-in `float(...)` coercion on strings is kept abstract as a
parameter `fp : String → Option PyFloat` (`none` models `ValueError`),
since `float` is a Python built-in, not code of this repository.
Attributes that the constructors may leave unassigned are `Option`
fields (`none` = attribute never set, so that a later access raises
`AttributeError`).  Exceptions escaping a method are modelled by
`Except PyErr`; the `print(...)` calls executed by the swallowed
`except ValueError` branches are collected in a message log, so that
"swallowed and printed" behaviour is observable.
-/

namespace NeoModels

/-- Decidable equality of `Except` results, so that witnesses can be
settled by evaluation. -/
instance exceptDecEq {ε α : Type} [DecidableEq ε] [DecidableEq α] :
    DecidableEq (Except ε α)
  | .ok a, .ok b =>
      if h : a = b then .isTrue (by rw [h]) else .isFalse (by simp [h])
  | .ok _, .error _ => .isFalse (by simp)
  | .error _, .ok _ => .isFalse (by simp)
  | .error a, .error b =>
      if h : a = b then .isTrue (by rw [h]) else .isFalse (by simp [h])

/-- Python exceptions that can escape the embedded methods. -/
inductive PyErr where
  | typeErr
  | attrErr
deriving DecidableEq, Repr

/-- Python raw values occurring in the input row dictionaries. -/
inductive PyVal where
  | vstr (s : String)
  | vint (n : Int)
  | vbool (b : Bool)
  | vnone
deriving DecidableEq, Repr

/-- Python float values: a finite rational or the nan sentinel. -/
inductive PyFloat where
  | nan
  | val (q : Rat)
deriving DecidableEq, Repr

/-- The Python `str.lower()` method (the keys and flag tokens involved
are ASCII, where mapping `Char.toLower` over the characters coincides
with it). -/
def strLower (s : String) : String := ⟨s.data.map Char.toLower⟩

/-- The total builtin string conversion `str(value)` on `PyVal`. -/
def pyStr : PyVal → String
  | .vstr s => s
  | .vint n => toString n
  | .vbool b => if b then "True" else "False"
  | .vnone => "None"

/-- The builtin `len(value)`: defined on strings, `TypeError` otherwise. -/
def pyLen : PyVal → Except PyErr Nat
  | .vstr s => .ok s.length
  | _ => .error .typeErr

/-- Outcome of the builtin `float(value)` coercion. -/
inductive CoerceRes where
  | ok (f : PyFloat)
  | valueErr
  | typeErr
deriving DecidableEq, Repr

/-- The builtin `float(value)` on `PyVal`, with the string case given by
the abstract numeric parser `fp` (`none` models `ValueError`);
`float(None)` raises `TypeError`, bools coerce to 0/1. -/
def pyFloatCoerce (fp : String → Option PyFloat) : PyVal → CoerceRes
  | .vstr s => match fp s with
    | some f => .ok f
    | none => .valueErr
  | .vint n => .ok (.val n)
  | .vbool b => .ok (.val (if b then 1 else 0))
  | .vnone => .typeErr

/-- A Python object reference as it can be passed to `append` or stored
in `approaches`: a reference to a `CloseApproach` in the store, a
reference to a `NearEarthObject`, or a primitive value. -/
inductive PyObj where
  | approachRef (i : Nat)
  | neoRef (i : Nat)
  | prim (v : PyVal)
deriving DecidableEq, Repr

/-- The `NearEarthObject` instance state.  `none` in an attribute field
means the constructor never assigned it (`AttributeError` on access);
`name = some none` means the attribute was assigned Python `None`. -/
structure NearEarthObject where
  designation : Option String
  name : Option (Option String)
  diameter : Option PyFloat
  hazardous : Option Bool
  approaches : List PyObj
deriving DecidableEq, Repr

/-- A `NearEarthObject` before any keyword has been processed; the
constructor ends with `self.approaches = []`, and no keyword branch
touches `approaches`, so it is `[]` from the start here. -/
def neoEmpty : NearEarthObject :=
  { designation := none, name := none, diameter := none,
    hazardous := none, approaches := [] }

/-- One iteration of the keyword loop of `NearEarthObject.__init__`.
The accumulator is the object under construction together with the log
of messages printed by the swallowed `except ValueError` branches;
`str(value)` is total, so the `except` branches of the `pdes` and `pha`
branches are unreachable and do not appear. -/
def neoStep (fp : String → Option PyFloat)
    (acc : NearEarthObject × List String) (kv : String × PyVal) :
    Except PyErr (NearEarthObject × List String) :=
  let key := kv.1
  let value := kv.2
  if strLower key = "pdes" then
    .ok ({ acc.1 with designation := some (pyStr value) }, acc.2)
  else if strLower key = "name" then
    match pyLen value with
    | .error e => .error e
    | .ok n =>
      if n ≠ 0 then .ok ({ acc.1 with name := some (some (pyStr value)) }, acc.2)
      else .ok ({ acc.1 with name := some none }, acc.2)
  else if strLower key = "diameter" then
    match pyLen value with
    | .error e => .error e
    | .ok n =>
      if n ≠ 0 then
        match pyFloatCoerce fp value with
        | .ok f => .ok ({ acc.1 with diameter := some f }, acc.2)
        | .valueErr =>
            .ok (acc.1, acc.2 ++ ["The type of " ++ key ++ " is not float"])
        | .typeErr => .error .typeErr
      else .ok ({ acc.1 with diameter := some PyFloat.nan }, acc.2)
  else if strLower key = "pha" then
    .ok ({ acc.1 with hazardous := some (strLower (pyStr value) == "y") }, acc.2)
  else
    .ok (acc.1, acc.2)

/-- `NearEarthObject.__init__(**info)`: fold the keyword loop over the
row entries (in dictionary insertion order) starting from a fresh
object. -/
def neoInit (fp : String → Option PyFloat) (info : List (String × PyVal)) :
    Except PyErr (NearEarthObject × List String) :=
  info.foldlM (neoStep fp) (neoEmpty, [])

/-- Whether a `PyObj` passes the `type(x) == CloseApproach` test. -/
def isApproach : PyObj → Bool
  | .approachRef _ => true
  | _ => false

/-- `NearEarthObject.append`: add the argument to `approaches` only when
its type is exactly `CloseApproach`; otherwise do nothing. -/
def NearEarthObject.append (o : NearEarthObject) (x : PyObj) : NearEarthObject :=
  if isApproach x then { o with approaches := o.approaches ++ [x] } else o

/-- A value in the dictionaries returned by `serialize()`. -/
inductive JVal where
  | jstr (s : String)
  | jnull
  | jfloat (f : PyFloat)
  | jbool (b : Bool)
deriving DecidableEq, Repr

/-- `NearEarthObject.serialize`: builds the four-entry dictionary; any
unassigned attribute raises `AttributeError` instead. -/
def NearEarthObject.serialize (o : NearEarthObject) :
    Except PyErr (List (String × JVal)) :=
  match o.designation, o.name, o.diameter, o.hazardous with
  | some d, some nm, some di, some hz =>
      .ok [("designation", .jstr d),
           ("name", match nm with | some s => .jstr s | none => .jnull),
           ("diameter_km", .jfloat di),
           ("potentially_hazardous", .jbool hz)]
  | _, _, _, _ => .error .attrErr

/-- The single-quote character used by the f-string in `fullname`. -/
def sq : String := String.singleton (Char.ofNat 39)

/-- `NearEarthObject.fullname`: the quoted form when a name is present,
just the designation otherwise; unassigned attributes raise. -/
def NearEarthObject.fullname (o : NearEarthObject) : Except PyErr String :=
  match o.name with
  | none => .error .attrErr
  | some (some n) =>
    match o.designation with
    | some d => .ok (sq ++ d ++ " (" ++ n ++ ")" ++ sq)
    | none => .error .attrErr
  | some none =>
    match o.designation with
    | some d => .ok d
    | none => .error .attrErr

/-- How an f-string displays the `name` attribute value. -/
def nameDisp : Option String → String
  | some s => s
  | none => "None"

/-- `NearEarthObject.__str__`, parameterised by the display of the float
`diameter` attribute (a Python `repr`-level concern external to the
model). -/
def NearEarthObject.strDisplay (fmt : PyFloat → String) (o : NearEarthObject) :
    Except PyErr String :=
  match o.hazardous with
  | none => .error .attrErr
  | some hz =>
    match o.name, o.diameter with
    | some nm, some di =>
        .ok (if hz then
              "NEO " ++ nameDisp nm ++ " has a diameter of " ++ fmt di ++
                " km and is potentially hazardous."
             else
              "NEO " ++ nameDisp nm ++ " has a diameter of " ++ fmt di ++
                " km and is not potentially hazardous.")
    | _, _ => .error .attrErr

/-- Modelled from the spec: the timestamp produced by the external
`helpers.cd_to_datetime` (parse calendar string → timestamp); its
internals are irrelevant here, so it is a wrapper of the parsed
calendar string. -/
structure Datetime where
  calendar : String
deriving DecidableEq, Repr

/-- Value held by the `time` attribute of a `CloseApproach`: normally a
parsed `Datetime`, but when `cd_to_datetime` raises the swallowed
`ValueError`, the attribute is left holding the string assigned by the
preceding `self.time = str(value)`. -/
inductive TimeVal where
  | dt (d : Datetime)
  | rawStr (s : String)
deriving DecidableEq, Repr

/-- The `CloseApproach` instance state; `desigStored` embeds the private
`_designation` attribute, `neo` holds an index into the object store
(or `none` for Python `None`).  A `none` in the other fields means the
attribute was never assigned. -/
structure CloseApproach where
  desigStored : Option String
  time : Option TimeVal
  distance : Option PyFloat
  velocity : Option PyFloat
  neo : Option Nat
deriving DecidableEq, Repr

/-- A `CloseApproach` before any keyword has been processed. -/
def caEmpty : CloseApproach :=
  { desigStored := none, time := none, distance := none,
    velocity := none, neo := none }

/-- One iteration of the keyword loop of `CloseApproach.__init__`; the
calendar parser `tp` (`none` models the `ValueError` of
`cd_to_datetime`, which is caught and printed) and float parser `fp`
are abstract. -/
def caStep (fp : String → Option PyFloat) (tp : String → Option Datetime)
    (acc : CloseApproach × List String) (kv : String × PyVal) :
    Except PyErr (CloseApproach × List String) :=
  let key := kv.1
  let value := kv.2
  if strLower key = "des" then
    .ok ({ acc.1 with desigStored := some (pyStr value) }, acc.2)
  else if strLower key = "cd" then
    match tp (pyStr value) with
    | some d => .ok ({ acc.1 with time := some (.dt d) }, acc.2)
    | none =>
        .ok ({ acc.1 with time := some (.rawStr (pyStr value)) },
             acc.2 ++ ["The type of " ++ key ++ " is not a string"])
  else if strLower key = "dist" then
    match pyFloatCoerce fp value with
    | .ok f => .ok ({ acc.1 with distance := some f }, acc.2)
    | .valueErr =>
        .ok (acc.1, acc.2 ++ ["The type of " ++ key ++ " is not a float"])
    | .typeErr => .error .typeErr
  else if strLower key = "v_rel" then
    match pyFloatCoerce fp value with
    | .ok f => .ok ({ acc.1 with velocity := some f }, acc.2)
    | .valueErr =>
        .ok (acc.1, acc.2 ++ ["The type of " ++ key ++ " is not a float"])
    | .typeErr => .error .typeErr
  else
    .ok (acc.1, acc.2)

/-- `CloseApproach.__init__(**info)`: fold the keyword loop over the row
entries, then execute the trailing `self.neo = None`. -/
def caInit (fp : String → Option PyFloat) (tp : String → Option Datetime)
    (info : List (String × PyVal)) :
    Except PyErr (CloseApproach × List String) :=
  (info.foldlM (caStep fp tp) (caEmpty, [])).map
    (fun p => ({ p.1 with neo := none }, p.2))

/-- The `CloseApproach.designation` read-only property: returns the
private `_designation` attribute, `AttributeError` when unassigned. -/
def CloseApproach.designation (o : CloseApproach) : Except PyErr String :=
  match o.desigStored with
  | some d => .ok d
  | none => .error .attrErr

/-- `CloseApproach.__str__`, parameterised by the display `tfmt` of the
`time` attribute (`str(self.time)`) and the display `rnd` of
`round(x, 2)` on a float (both Python `repr`-level concerns external to
the model); `neoObj` is the object referenced by `self.neo` (`none` for
Python `None`, whose `fullname` access raises `AttributeError`).  The
f-string evaluates `self.time`, then `self.neo.fullname`, then the
distance and velocity. -/
def CloseApproach.strWith (tfmt : TimeVal → String) (rnd : PyFloat → String)
    (o : CloseApproach) (neoObj : Option NearEarthObject) :
    Except PyErr String :=
  match o.time with
  | none => .error .attrErr
  | some t =>
    match neoObj with
    | none => .error .attrErr
    | some nobj =>
      match nobj.fullname with
      | .error e => .error e
      | .ok fn =>
        match o.distance, o.velocity with
        | some d, some v =>
            .ok ("- On " ++ tfmt t ++ ", " ++ fn ++ " approaches Earth " ++
                 "at a distance of " ++ rnd d ++ " au" ++
                 " and velocity of " ++ rnd v ++ " km/s.")
        | _, _ => .error .attrErr

/-- The object store underlying the linking pass performed by the
external `NEODatabase` constructor: `approachRef j` / `neoRef i` values
denote `cas[j]` / `neos[i]`, so reference identity is index equality. -/
structure Store where
  neos : List NearEarthObject
  cas : List CloseApproach

instance : Inhabited NearEarthObject := ⟨neoEmpty⟩

instance : Inhabited CloseApproach := ⟨caEmpty⟩

/-- One linking step on the store: `neos[i].append(cas[j]); cas[j].neo =
neos[i]`, the two statements the external linking component executes
for one approach. -/
def Store.link (s : Store) (i j : Nat) : Store :=
  { neos := s.neos.set i ((s.neos.getD i default).append (.approachRef j)),
    cas := s.cas.set j { s.cas.getD j default with neo := some i } }

/-- A concrete decimal-string parser standing in for the abstract
`float(...)` coercion when witnesses and counterexamples are evaluated:
plain decimal numerals (optionally with one decimal point) parse, any
other string is rejected, as `float` rejects a non-numeric string with
`ValueError`. -/
def digitsVal (l : List Char) : Nat :=
  l.foldl (fun n c => n * 10 + (c.toNat - 48)) 0

/-- Splits a character list at the decimal points. -/
def splitDotAux : List Char → List Char → List (List Char)
  | [], acc => [acc.reverse]
  | c :: rest, acc =>
      if c = '.' then acc.reverse :: splitDotAux rest []
      else splitDotAux rest (c :: acc)

/-- Concrete decimal parser instance, see `digitsVal`. -/
def parseDec (s : String) : Option PyFloat :=
  match splitDotAux s.data [] with
  | [a] =>
      if decide (a ≠ []) && a.all Char.isDigit then
        some (.val (mkRat (digitsVal a) 1)) else none
  | [a, b] =>
      if a.all Char.isDigit && b.all Char.isDigit &&
          decide (a.length + b.length ≠ 0) then
        some (.val (mkRat (digitsVal (a ++ b)) (10 ^ b.length)))
      else none
  | _ => none

/-- Modelled from the spec: a concrete instance of the external
`cd_to_datetime` parser (parse calendar string → timestamp) used when
witnesses are evaluated; it accepts every calendar string. -/
def tpAll (s : String) : Option Datetime := some ⟨s⟩

/-- Concrete display of the `time` attribute used in witnesses. -/
def tfmt0 : TimeVal → String
  | .dt d => d.calendar
  | .rawStr s => s

/-- Concrete display of a rounded float used in witnesses. -/
def rnd0 : PyFloat → String
  | .nan => "nan"
  | .val q => toString q

/-- Fixture: the object record `neoInit` builds from the row with
designation 433, name Eros, empty diameter and hazard flag Y. -/
def neoW4 : NearEarthObject :=
  { designation := some "433", name := some (some "Eros"),
    diameter := some PyFloat.nan, hazardous := some true, approaches := [] }

/-- Fixture: the matching approach record built by `caInit`. -/
def caW4 : CloseApproach :=
  { desigStored := some "433", time := some (.dt ⟨"2020-Jan-01 12:00"⟩),
    distance := some (.val (mkRat 1 2)), velocity := some (.val (mkRat 5 1)),
    neo := none }

/-- Fixture: the one-object, one-approach store before linking. -/
def storeW4 : Store := Store.mk [neoW4] [caW4]

/-- Fixture: a fully-populated approach record for the display claims. -/
def caW7 : CloseApproach :=
  { caEmpty with
    time := some (.dt ⟨"2020-Jan-01 12:00"⟩),
    distance := some (.val (mkRat 1 2)),
    velocity := some (.val (mkRat 5 1)) }

/-- Fixture: the linked object for the display claims. -/
def neoW7 : NearEarthObject :=
  { neoEmpty with designation := some "433", name := some (some "Eros") }

/-- Fixture: an Apophis-like hazardous object for the display claims. -/
def neoW8 : NearEarthObject :=
  { neoEmpty with
    name := some (some "Apophis"),
    diameter := some (.val (mkRat 17 50)),
    hazardous := some true }

/-! Helper lemmas about the embedded operations. -/

theorem bindErr {ε α β : Type} (e : ε) (f : α → Except ε β) :
    (Except.error e >>= f) = .error e := rfl

theorem bindOk {ε α β : Type} (a : α) (f : α → Except ε β) :
    (Except.ok a >>= f) = f a := rfl

theorem neoStep_pdes (fp : String → Option PyFloat)
    (acc : NearEarthObject × List String) (key : String) (value : PyVal)
    (h : strLower key = "pdes") :
    neoStep fp acc (key, value) =
      .ok ({ acc.1 with designation := some (pyStr value) }, acc.2) := by
  simp [neoStep, h]

theorem neoStep_name_str (fp : String → Option PyFloat)
    (acc : NearEarthObject × List String) (key s : String)
    (h : strLower key = "name") (hs : s.length ≠ 0) :
    neoStep fp acc (key, .vstr s) =
      .ok ({ acc.1 with name := some (some s) }, acc.2) := by
  simp [neoStep, h, pyLen, pyStr, hs]

theorem neoStep_name_empty (fp : String → Option PyFloat)
    (acc : NearEarthObject × List String) (key : String)
    (h : strLower key = "name") :
    neoStep fp acc (key, .vstr "") =
      .ok ({ acc.1 with name := some none }, acc.2) := by
  simp [neoStep, h, pyLen]

theorem neoStep_diam_str (fp : String → Option PyFloat)
    (acc : NearEarthObject × List String) (key s : String) (f : PyFloat)
    (h : strLower key = "diameter") (hs : s.length ≠ 0) (hf : fp s = some f) :
    neoStep fp acc (key, .vstr s) =
      .ok ({ acc.1 with diameter := some f }, acc.2) := by
  simp [neoStep, h, pyLen, pyFloatCoerce, hs, hf]

theorem neoStep_diam_empty (fp : String → Option PyFloat)
    (acc : NearEarthObject × List String) (key : String)
    (h : strLower key = "diameter") :
    neoStep fp acc (key, .vstr "") =
      .ok ({ acc.1 with diameter := some PyFloat.nan }, acc.2) := by
  simp [neoStep, h, pyLen]

theorem neoStep_pha (fp : String → Option PyFloat)
    (acc : NearEarthObject × List String) (key : String) (value : PyVal)
    (h : strLower key = "pha") :
    neoStep fp acc (key, value) =
      .ok ({ acc.1 with hazardous := some (strLower (pyStr value) == "y") }, acc.2) := by
  simp [neoStep, h]

theorem neoStep_err (fp : String → Option PyFloat)
    (acc : NearEarthObject × List String) (kv : String × PyVal) (e : PyErr)
    (h : neoStep fp acc kv = .error e) : e = .typeErr := by
  obtain ⟨key, value⟩ := kv
  cases value <;> simp only [neoStep, pyLen, pyFloatCoerce] at h <;>
    repeat' split at h
  all_goals simp_all

theorem neoStep_haz_pres (fp : String → Option PyFloat)
    (acc res : NearEarthObject × List String) (kv : String × PyVal)
    (hk : strLower kv.1 ≠ "pha") (h : neoStep fp acc kv = .ok res) :
    res.1.hazardous = acc.1.hazardous := by
  obtain ⟨key, value⟩ := kv
  simp only [neoStep] at h
  repeat' split at h
  all_goals simp_all
  all_goals (cases h; rfl)

theorem neoStep_app_pres (fp : String → Option PyFloat)
    (acc res : NearEarthObject × List String) (kv : String × PyVal)
    (h : neoStep fp acc kv = .ok res) :
    res.1.approaches = acc.1.approaches := by
  obtain ⟨key, value⟩ := kv
  simp only [neoStep] at h
  repeat' split at h
  all_goals simp_all
  all_goals (cases h; rfl)

theorem foldNeo_err (fp : String → Option PyFloat) (info : List (String × PyVal)) :
    ∀ (acc : NearEarthObject × List String) (e : PyErr),
      info.foldlM (neoStep fp) acc = .error e → e = .typeErr := by
  induction info with
  | nil =>
    intro acc e h
    simp only [List.foldlM_nil, pure, Except.pure] at h
    cases h
  | cons hd tl ih =>
    intro acc e h
    rw [List.foldlM_cons] at h
    cases hr : neoStep fp acc hd with
    | error e2 =>
        rw [hr, bindErr] at h
        cases h
        exact neoStep_err fp acc hd e hr
    | ok acc2 =>
        rw [hr, bindOk] at h
        exact ih acc2 e h

theorem foldNeo_haz (fp : String → Option PyFloat) (info : List (String × PyVal)) :
    ∀ (acc res : NearEarthObject × List String),
      (∀ kv ∈ info, strLower kv.1 ≠ "pha") →
      info.foldlM (neoStep fp) acc = .ok res → res.1.hazardous = acc.1.hazardous := by
  induction info with
  | nil =>
    intro acc res _ h
    simp only [List.foldlM_nil, pure, Except.pure, Except.ok.injEq] at h
    rw [← h]
  | cons hd tl ih =>
    intro acc res hnp h
    rw [List.foldlM_cons] at h
    cases hr : neoStep fp acc hd with
    | error e2 => rw [hr, bindErr] at h; cases h
    | ok acc2 =>
        rw [hr, bindOk] at h
        have h1 : res.1.hazardous = acc2.1.hazardous :=
          ih acc2 res (fun kv hm => hnp kv (List.mem_cons_of_mem hd hm)) h
        have h2 : acc2.1.hazardous = acc.1.hazardous :=
          neoStep_haz_pres fp acc acc2 hd (hnp hd (List.mem_cons_self hd tl)) hr
        rw [h1, h2]

theorem foldNeo_app (fp : String → Option PyFloat) (info : List (String × PyVal)) :
    ∀ (acc res : NearEarthObject × List String),
      info.foldlM (neoStep fp) acc = .ok res → res.1.approaches = acc.1.approaches := by
  induction info with
  | nil =>
    intro acc res h
    simp only [List.foldlM_nil, pure, Except.pure, Except.ok.injEq] at h
    rw [← h]
  | cons hd tl ih =>
    intro acc res h
    rw [List.foldlM_cons] at h
    cases hr : neoStep fp acc hd with
    | error e2 => rw [hr, bindErr] at h; cases h
    | ok acc2 =>
        rw [hr, bindOk] at h
        rw [ih acc2 res h, neoStep_app_pres fp acc acc2 hd hr]

theorem foldNeo_badLen (fp : String → Option PyFloat) (info : List (String × PyVal)) :
    ∀ (acc : NearEarthObject × List String) (k : String) (v : PyVal),
      (k, v) ∈ info → (strLower k = "name" ∨ strLower k = "diameter") →
      pyLen v = .error .typeErr →
      info.foldlM (neoStep fp) acc = .error .typeErr := by
  induction info with
  | nil => intro acc k v hm; cases hm
  | cons hd tl ih =>
    intro acc k v hm hk hv
    rw [List.foldlM_cons]
    rcases List.mem_cons.mp hm with heq | hmem
    · subst heq
      have hstep : neoStep fp acc (k, v) = .error .typeErr := by
        rcases hk with hk | hk <;> simp [neoStep, hk, hv]
      rw [hstep, bindErr]
    · cases hr : neoStep fp acc hd with
      | error e2 =>
          rw [bindErr]
          rw [neoStep_err fp acc hd e2 hr]
      | ok acc2 =>
          rw [bindOk]
          exact ih acc2 k v hmem hk hv

theorem caStep_des (fp : String → Option PyFloat) (tp : String → Option Datetime)
    (acc : CloseApproach × List String) (key : String) (value : PyVal)
    (h : strLower key = "des") :
    caStep fp tp acc (key, value) =
      .ok ({ acc.1 with desigStored := some (pyStr value) }, acc.2) := by
  simp [caStep, h]

theorem caStep_dist_vErr (fp : String → Option PyFloat) (tp : String → Option Datetime)
    (acc : CloseApproach × List String) (key s : String)
    (h : strLower key = "dist") (hf : fp s = none) :
    caStep fp tp acc (key, .vstr s) =
      .ok (acc.1, acc.2 ++ ["The type of " ++ key ++ " is not a float"]) := by
  simp [caStep, h, pyFloatCoerce, hf]

theorem append_inv (o : NearEarthObject) (hd : PyObj)
    (h : ∀ y ∈ o.approaches, isApproach y = true) :
    ∀ y ∈ (o.append hd).approaches, isApproach y = true := by
  intro y hy
  by_cases hhd : isApproach hd = true
  · simp [NearEarthObject.append, hhd] at hy
    rcases hy with hy | hy
    · exact h y hy
    · rw [hy]; exact hhd
  · simp [NearEarthObject.append, hhd] at hy
    exact h y hy

theorem foldAppend_inv (xs : List PyObj) :
    ∀ (o : NearEarthObject), (∀ y ∈ o.approaches, isApproach y = true) →
      ∀ y ∈ (xs.foldl NearEarthObject.append o).approaches, isApproach y = true := by
  induction xs with
  | nil => intro o h; simpa using h
  | cons hd tl ih =>
    intro o h
    rw [List.foldl_cons]
    exact ih _ (append_inv o hd h)

theorem getD_set_self {α : Type} (l : List α) :
    ∀ (i : Nat) (a d : α), i < l.length → (l.set i a).getD i d = a := by
  induction l with
  | nil => intro i a d h; exact absurd h (Nat.not_lt_zero i)
  | cons hd tl ih =>
    intro i a d h
    cases i with
    | zero => rfl
    | succ n => exact ih n a d (Nat.lt_of_succ_lt_succ h)

/-! Claim theorems. -/

/-- C1, counterexample: the row with designation 433, an empty diameter
and hazard flag N, but no name entry, is accepted by the constructor,
yet `serialize()` then raises `AttributeError` because the `name`
attribute was never assigned — so an absent name does not serialize as
null, refuting the claim. -/
theorem serializeAbsent_cex :
    neoInit parseDec [(("pdes" : String), PyVal.vstr "433"),
        (("diameter" : String), PyVal.vstr ""), (("pha" : String), PyVal.vstr "N")] =
      .ok ({ designation := some "433", name := none, diameter := some PyFloat.nan,
             hazardous := some false, approaches := [] }, [])
    ∧ NearEarthObject.serialize
        { designation := some "433", name := none, diameter := some PyFloat.nan,
          hazardous := some false, approaches := [] } = .error .attrErr := by
  constructor <;> decide

/-- C1, amended: when all four fields are present as strings, with a
nonempty name and a parseable nonempty diameter, construction then
`serialize()` round-trips the coerced values under exactly the keys
designation, name, diameter_km, potentially_hazardous; an empty name
string serializes as null and an empty diameter string as the nan
sentinel.  (Fields absent from the input leave the attribute unset
instead, and `serialize()` raises — see the counterexample.) -/
theorem serializeRoundTrip_amended (fp : String → Option PyFloat)
    (d nm di hz : String) (f : PyFloat)
    (hnm : nm.length ≠ 0) (hdi : di.length ≠ 0) (hf : fp di = some f) :
    (neoInit fp [(("pdes" : String), .vstr d), (("name" : String), .vstr nm),
        (("diameter" : String), .vstr di), (("pha" : String), .vstr hz)] =
      .ok ({ designation := some d, name := some (some nm), diameter := some f,
             hazardous := some (strLower hz == "y"), approaches := [] }, []))
    ∧ NearEarthObject.serialize
        { designation := some d, name := some (some nm), diameter := some f,
          hazardous := some (strLower hz == "y"), approaches := [] } =
        .ok [("designation", .jstr d), ("name", .jstr nm), ("diameter_km", .jfloat f),
             ("potentially_hazardous", .jbool (strLower hz == "y"))]
    ∧ (neoInit fp [(("pdes" : String), .vstr d), (("name" : String), .vstr ""),
        (("diameter" : String), .vstr ""), (("pha" : String), .vstr hz)] =
      .ok ({ designation := some d, name := some none, diameter := some PyFloat.nan,
             hazardous := some (strLower hz == "y"), approaches := [] }, []))
    ∧ NearEarthObject.serialize
        { designation := some d, name := some none, diameter := some PyFloat.nan,
          hazardous := some (strLower hz == "y"), approaches := [] } =
        .ok [("designation", .jstr d), ("name", .jnull), ("diameter_km", .jfloat PyFloat.nan),
             ("potentially_hazardous", .jbool (strLower hz == "y"))] := by
  refine ⟨?_, rfl, ?_, rfl⟩
  · unfold neoInit
    rw [List.foldlM_cons, neoStep_pdes fp (neoEmpty, []) "pdes" (.vstr d) (by decide), bindOk]
    rw [List.foldlM_cons, neoStep_name_str fp _ "name" nm (by decide) hnm, bindOk]
    rw [List.foldlM_cons, neoStep_diam_str fp _ "diameter" di f (by decide) hdi hf, bindOk]
    rw [List.foldlM_cons, neoStep_pha fp _ "pha" (.vstr hz) (by decide), bindOk, List.foldlM_nil]
    rfl
  · unfold neoInit
    rw [List.foldlM_cons, neoStep_pdes fp (neoEmpty, []) "pdes" (.vstr d) (by decide), bindOk]
    rw [List.foldlM_cons, neoStep_name_empty fp _ "name" (by decide), bindOk]
    rw [List.foldlM_cons, neoStep_diam_empty fp _ "diameter" (by decide), bindOk]
    rw [List.foldlM_cons, neoStep_pha fp _ "pha" (.vstr hz) (by decide), bindOk, List.foldlM_nil]
    rfl

/-- C1, witness: the amended round-trip evaluated on the Eros row. -/
theorem serializeRoundTrip_amended_witness :
    (("Eros" : String).length ≠ 0 ∧ ("0.5" : String).length ≠ 0
      ∧ parseDec "0.5" = some (.val (mkRat 1 2)))
    ∧ NearEarthObject.serialize
        { designation := some "433", name := some (some "Eros"),
          diameter := some (.val (mkRat 1 2)),
          hazardous := some (strLower "Y" == "y"), approaches := [] } =
        .ok [("designation", .jstr "433"), ("name", .jstr "Eros"),
             ("diameter_km", .jfloat (.val (mkRat 1 2))),
             ("potentially_hazardous", .jbool (strLower "Y" == "y"))] :=
  ⟨⟨by decide, by decide, by decide⟩,
   (serializeRoundTrip_amended parseDec "433" "Eros" "0.5" "Y" (.val (mkRat 1 2))
     (by decide) (by decide) (by decide)).2.1⟩

/-- C2, counterexample: a row with no hazardous-flag entry leaves the
`hazardous` attribute unset (`none`), not assigned false, refuting the
absent-field part of the claim. -/
theorem hazardAbsent_cex :
    (neoInit parseDec [(("pdes" : String), PyVal.vstr "433")]).map (fun p => p.1.hazardous) =
      .ok none
    ∧ (neoInit parseDec [(("pdes" : String), PyVal.vstr "433")]).map (fun p => p.1.hazardous) ≠
      .ok (some false) := by
  constructor <;> decide

/-- C2, amended: when the hazardous-flag field is present, `hazardous`
is assigned true if and only if the coerced token equals Y
case-insensitively (so N, the empty string and any other token give
false); when no key lowers to pha, any successfully constructed object
has its `hazardous` attribute unset rather than false. -/
theorem hazardFlag_amended (fp : String → Option PyFloat) (v : PyVal)
    (info : List (String × PyVal)) (hnp : ∀ kv ∈ info, strLower kv.1 ≠ "pha") :
    neoInit fp [(("pha" : String), v)] =
      .ok ({ neoEmpty with hazardous := some (strLower (pyStr v) == "y") }, [])
    ∧ (∀ res, neoInit fp info = .ok res → res.1.hazardous = none) := by
  constructor
  · unfold neoInit
    rw [List.foldlM_cons, neoStep_pha fp (neoEmpty, []) "pha" v (by decide), bindOk,
      List.foldlM_nil]
    rfl
  · intro res h
    have := foldNeo_haz fp info (neoEmpty, []) res hnp h
    simpa [neoEmpty] using this

/-- C2, witness: the amended hazard-flag behaviour on the token y and a
pha-free row. -/
theorem hazardFlag_amended_witness :
    ((∀ kv ∈ [(("pdes" : String), PyVal.vstr "2015 AB")], strLower kv.1 ≠ "pha")
    ∧ neoInit parseDec [(("pha" : String), PyVal.vstr "y")] =
      .ok ({ neoEmpty with hazardous := some (strLower (pyStr (PyVal.vstr "y")) == "y") }, []))
    ∧ (∀ res, neoInit parseDec [(("pdes" : String), PyVal.vstr "2015 AB")] = .ok res →
        res.1.hazardous = none) :=
  ⟨⟨by decide, (hazardFlag_amended parseDec (PyVal.vstr "y")
      [(("pdes" : String), PyVal.vstr "2015 AB")] (by decide)).1⟩,
   (hazardFlag_amended parseDec (PyVal.vstr "y")
      [(("pdes" : String), PyVal.vstr "2015 AB")] (by decide)).2⟩

/-- C3, counterexample: a row whose distance field is the non-numeric
string abc is constructed without any exception — the `ValueError` from
the float coercion is caught, the message is printed, and the resulting
instance has its `distance` attribute unset — refuting the claim that
construction raises and produces no partially constructed instance. -/
theorem distanceSwallow_cex :
    caInit parseDec tpAll [(("des" : String), PyVal.vstr "2019 XY"),
        (("dist" : String), PyVal.vstr "abc")] =
      .ok ({ caEmpty with desigStored := some "2019 XY" },
           ["The type of dist is not a float"]) := by
  decide

/-- C3, amended: for every distance raw string the float coercion
rejects, `CloseApproach.__init__` swallows the `ValueError`, prints the
dist error message, and completes normally with the `distance`
attribute unset — the failure is printed rather than surfaced. -/
theorem distanceSwallow_amended (fp : String → Option PyFloat)
    (tp : String → Option Datetime) (des s : String) (hf : fp s = none) :
    caInit fp tp [(("des" : String), .vstr des), (("dist" : String), .vstr s)] =
      .ok ({ caEmpty with desigStored := some des },
           ["The type of dist is not a float"]) := by
  unfold caInit
  rw [List.foldlM_cons, caStep_des fp tp (caEmpty, []) "des" (.vstr des) (by decide), bindOk]
  rw [List.foldlM_cons, caStep_dist_vErr fp tp _ "dist" s (by decide) hf, bindOk,
    List.foldlM_nil]
  rfl

/-- C3, witness: the swallowed-distance behaviour on the string abc. -/
theorem distanceSwallow_amended_witness :
    parseDec "abc" = none
    ∧ caInit parseDec tpAll [(("des" : String), PyVal.vstr "2020 BZ"),
        (("dist" : String), PyVal.vstr "abc")] =
      .ok ({ caEmpty with desigStored := some "2020 BZ" },
           ["The type of dist is not a float"]) :=
  ⟨by decide, distanceSwallow_amended parseDec tpAll "2020 BZ" "abc" (by decide)⟩

/-- C4, confirmed: for an object and an approach constructed from rows
carrying the same primary designation, after the linking steps
`obj.append(ev); ev.neo = obj` the approach reference is in the
object's `approaches`, the approach's `neo` reference denotes the
object, and the two designations agree. -/
theorem linkInvariant (s : Store) (i j : Nat)
    (hi : i < s.neos.length) (hj : j < s.cas.length) (d : String)
    (fp : String → Option PyFloat) (tp : String → Option Datetime)
    (info1 info2 : List (String × PyVal)) (l1 l2 : List String)
    (hobj : neoInit fp info1 = .ok (s.neos.getD i default, l1))
    (hev : caInit fp tp info2 = .ok (s.cas.getD j default, l2))
    (hd1 : (s.neos.getD i default).designation = some d)
    (hd2 : (s.cas.getD j default).desigStored = some d) :
    PyObj.approachRef j ∈ ((s.link i j).neos.getD i default).approaches
    ∧ ((s.link i j).cas.getD j default).neo = some i
    ∧ ((s.link i j).cas.getD j default).designation = .ok d
    ∧ ((s.link i j).neos.getD i default).designation = some d := by
  have hn : (s.link i j).neos.getD i default =
      (s.neos.getD i default).append (.approachRef j) :=
    getD_set_self s.neos i _ default hi
  have hc : (s.link i j).cas.getD j default =
      { s.cas.getD j default with neo := some i } :=
    getD_set_self s.cas j _ default hj
  set n := s.neos.getD i default with hn0
  set c := s.cas.getD j default with hc0
  refine ⟨?_, ?_, ?_, ?_⟩
  · rw [hn]
    simp [NearEarthObject.append, isApproach]
  · rw [hc]
  · rw [hc]
    simp [CloseApproach.designation, hd2]
  · rw [hn]
    simp [NearEarthObject.append, isApproach, hd1]

/-- C4, witness: the linking invariant evaluated on the one-object,
one-approach store with shared designation 433. -/
theorem linkInvariant_witness :
    (neoInit parseDec [(("pdes" : String), PyVal.vstr "433"),
        (("name" : String), PyVal.vstr "Eros"), (("diameter" : String), PyVal.vstr ""),
        (("pha" : String), PyVal.vstr "Y")] = .ok (storeW4.neos.getD 0 default, [])
    ∧ caInit parseDec tpAll [(("des" : String), PyVal.vstr "433"),
        (("cd" : String), PyVal.vstr "2020-Jan-01 12:00"),
        (("dist" : String), PyVal.vstr "0.5"), (("v_rel" : String), PyVal.vstr "5")] =
      .ok (storeW4.cas.getD 0 default, []))
    ∧ (PyObj.approachRef 0 ∈ ((storeW4.link 0 0).neos.getD 0 default).approaches
    ∧ ((storeW4.link 0 0).cas.getD 0 default).neo = some 0
    ∧ ((storeW4.link 0 0).cas.getD 0 default).designation = .ok "433"
    ∧ ((storeW4.link 0 0).neos.getD 0 default).designation = some "433") :=
  ⟨⟨by decide, by decide⟩,
   linkInvariant storeW4 0 0 (by decide) (by decide) "433" parseDec tpAll
     [(("pdes" : String), PyVal.vstr "433"), (("name" : String), PyVal.vstr "Eros"),
      (("diameter" : String), PyVal.vstr ""), (("pha" : String), PyVal.vstr "Y")]
     [(("des" : String), PyVal.vstr "433"), (("cd" : String), PyVal.vstr "2020-Jan-01 12:00"),
      (("dist" : String), PyVal.vstr "0.5"), (("v_rel" : String), PyVal.vstr "5")]
     [] [] (by decide) (by decide) (by decide) (by decide)⟩

/-- C5, confirmed: `append` adds its argument to `approaches` exactly
when the argument is a `CloseApproach`, is a no-op (and in particular
total, never raising) otherwise, the constructor initialises
`approaches` empty, and any sequence of `append` calls preserves the
invariant that `approaches` holds only `CloseApproach` references. -/
theorem appendPolicy (o : NearEarthObject) (x : PyObj) (xs : List PyObj)
    (fp : String → Option PyFloat) (info : List (String × PyVal))
    (res : NearEarthObject × List String) (h : neoInit fp info = .ok res) :
    (isApproach x = true → (o.append x).approaches = o.approaches ++ [x])
    ∧ (isApproach x = false → o.append x = o)
    ∧ res.1.approaches = []
    ∧ ((∀ y ∈ o.approaches, isApproach y = true) →
        ∀ y ∈ (xs.foldl NearEarthObject.append o).approaches, isApproach y = true) := by
  refine ⟨?_, ?_, ?_, foldAppend_inv xs o⟩
  · intro hx; simp [NearEarthObject.append, hx]
  · intro hx; simp [NearEarthObject.append, hx]
  · have := foldNeo_app fp info (neoEmpty, []) res h
    simpa [neoEmpty] using this

/-- C5, witness: the append policy evaluated on a primitive argument and
a mixed append sequence. -/
theorem appendPolicy_witness :
    (neoInit parseDec [(("pdes" : String), PyVal.vstr "1")] =
      .ok ({ neoEmpty with designation := some "1" }, []))
    ∧ ((isApproach (PyObj.prim PyVal.vnone) = true →
        (({ neoEmpty with approaches := [PyObj.approachRef 0] } : NearEarthObject).append
          (PyObj.prim PyVal.vnone)).approaches = [PyObj.approachRef 0] ++ [PyObj.prim PyVal.vnone])
    ∧ (isApproach (PyObj.prim PyVal.vnone) = false →
        ({ neoEmpty with approaches := [PyObj.approachRef 0] } : NearEarthObject).append
          (PyObj.prim PyVal.vnone) = { neoEmpty with approaches := [PyObj.approachRef 0] })
    ∧ ({ neoEmpty with designation := some "1" } : NearEarthObject).approaches = []
    ∧ ((∀ y ∈ ({ neoEmpty with approaches := [PyObj.approachRef 0] } : NearEarthObject).approaches,
          isApproach y = true) →
        ∀ y ∈ (([PyObj.approachRef 2, PyObj.prim PyVal.vnone].foldl NearEarthObject.append
            { neoEmpty with approaches := [PyObj.approachRef 0] }).approaches),
          isApproach y = true)) :=
  ⟨by decide,
   appendPolicy { neoEmpty with approaches := [PyObj.approachRef 0] }
     (PyObj.prim PyVal.vnone) [PyObj.approachRef 2, PyObj.prim PyVal.vnone]
     parseDec [(("pdes" : String), PyVal.vstr "1")]
     ({ neoEmpty with designation := some "1" }, []) (by decide)⟩

/-- C6, counterexample: for designation 433 and name Eros, `fullname`
yields the single-quoted string (quote, 433 (Eros), quote), not the
bare string 433 (Eros) the claim states. -/
theorem fullname_quote_cex :
    neoInit parseDec [(("pdes" : String), PyVal.vstr "433"),
        (("name" : String), PyVal.vstr "Eros")] =
      .ok ({ neoEmpty with designation := some "433", name := some (some "Eros") }, [])
    ∧ NearEarthObject.fullname
        { neoEmpty with designation := some "433", name := some (some "Eros") } =
      .ok (sq ++ "433 (Eros)" ++ sq)
    ∧ NearEarthObject.fullname
        { neoEmpty with designation := some "433", name := some (some "Eros") } ≠
      .ok "433 (Eros)" := by
  refine ⟨by decide, by decide, by decide⟩

/-- C6, amended: with a name present, `fullname` is the designation and
parenthesised name wrapped in single quotes; with the name attribute
set to null it is just the designation. -/
theorem fullname_amended (o : NearEarthObject) (d n : String)
    (hd : o.designation = some d) :
    (o.name = some (some n) → o.fullname = .ok (sq ++ d ++ " (" ++ n ++ ")" ++ sq))
    ∧ (o.name = some none → o.fullname = .ok d) := by
  constructor <;> intro hn <;> simp [NearEarthObject.fullname, hn, hd]

/-- C6, witness: the amended `fullname` evaluated on designation
2015 AB with no name. -/
theorem fullname_amended_witness :
    (({ neoEmpty with designation := some "2015 AB", name := some none } :
        NearEarthObject).designation = some "2015 AB")
    ∧ (({ neoEmpty with designation := some "2015 AB", name := some none } :
        NearEarthObject).name = some (some "x") →
      ({ neoEmpty with designation := some "2015 AB", name := some none } :
        NearEarthObject).fullname = .ok (sq ++ "2015 AB" ++ " (" ++ "x" ++ ")" ++ sq))
    ∧ (({ neoEmpty with designation := some "2015 AB", name := some none } :
        NearEarthObject).name = some none →
      ({ neoEmpty with designation := some "2015 AB", name := some none } :
        NearEarthObject).fullname = .ok "2015 AB") :=
  ⟨by decide,
   (fullname_amended { neoEmpty with designation := some "2015 AB", name := some none }
      "2015 AB" "x" (by decide)).1,
   (fullname_amended { neoEmpty with designation := some "2015 AB", name := some none }
      "2015 AB" "x" (by decide)).2⟩

/-- C7, counterexample: the display string of a linked approach starts
with a dash-space prefix and ends with a period, so it is not exactly
the sentence the claim states (shown at a concrete approach, where the
two strings differ precisely by that prefix and suffix). -/
theorem approachDisplay_cex :
    CloseApproach.strWith tfmt0 rnd0 caW7 (some neoW7) =
      .ok ("- On 2020-Jan-01 12:00, " ++ sq ++ "433 (Eros)" ++ sq ++
           " approaches Earth at a distance of 1/2 au and velocity of 5 km/s.")
    ∧ CloseApproach.strWith tfmt0 rnd0 caW7 (some neoW7) ≠
      .ok ("On 2020-Jan-01 12:00, " ++ sq ++ "433 (Eros)" ++ sq ++
           " approaches Earth at a distance of 1/2 au and velocity of 5 km/s") := by
  constructor <;> decide

/-- C7, amended: with `neo` linked, the display string is the fixed
template (dash, On, the raw time display, the neo's `fullname`, the
rounded distance and velocity, ending in km/s and a period), for every
display of the time and of the rounded floats; invoking it with `neo`
null raises `AttributeError` — a precondition violation, as claimed. -/
theorem approachDisplay_amended (tfmt : TimeVal → String) (rnd : PyFloat → String)
    (o : CloseApproach) (nobj : NearEarthObject) (t : TimeVal) (dv vv : PyFloat)
    (fn : String) (ht : o.time = some t) (hd : o.distance = some dv)
    (hv : o.velocity = some vv) (hfn : nobj.fullname = .ok fn) :
    o.strWith tfmt rnd (some nobj) =
      .ok ("- On " ++ tfmt t ++ ", " ++ fn ++ " approaches Earth " ++
           "at a distance of " ++ rnd dv ++ " au" ++
           " and velocity of " ++ rnd vv ++ " km/s.")
    ∧ o.strWith tfmt rnd none = .error .attrErr := by
  constructor
  · simp [CloseApproach.strWith, ht, hd, hv, hfn]
  · simp [CloseApproach.strWith, ht]

/-- C7, witness: the amended display template evaluated on the linked
Eros approach. -/
theorem approachDisplay_amended_witness :
    (caW7.time = some (.dt ⟨"2020-Jan-01 12:00"⟩)
      ∧ caW7.distance = some (.val (mkRat 1 2))
      ∧ caW7.velocity = some (.val (mkRat 5 1))
      ∧ neoW7.fullname = .ok (sq ++ "433 (Eros)" ++ sq))
    ∧ (caW7.strWith tfmt0 rnd0 (some neoW7) =
        .ok ("- On " ++ tfmt0 (.dt ⟨"2020-Jan-01 12:00"⟩) ++ ", " ++
             (sq ++ "433 (Eros)" ++ sq) ++ " approaches Earth " ++
             "at a distance of " ++ rnd0 (.val (mkRat 1 2)) ++ " au" ++
             " and velocity of " ++ rnd0 (.val (mkRat 5 1)) ++ " km/s.")
      ∧ caW7.strWith tfmt0 rnd0 none = .error .attrErr) :=
  ⟨⟨by decide, by decide, by decide, by decide⟩,
   approachDisplay_amended tfmt0 rnd0 caW7 neoW7 (.dt ⟨"2020-Jan-01 12:00"⟩)
     (.val (mkRat 1 2)) (.val (mkRat 5 1)) (sq ++ "433 (Eros)" ++ sq)
     (by decide) (by decide) (by decide) (by decide)⟩

/-- C8, confirmed: the object display string is one of exactly two fixed
templates (which differ), reporting the name identity, the diameter and
the hazard status; the hazardous template is selected exactly when the
flag is true and the not-hazardous one exactly when it is false. -/
theorem neoDisplay_templates (fmt : PyFloat → String) (o : NearEarthObject)
    (nm : Option String) (di : PyFloat) (hz : Bool)
    (hn : o.name = some nm) (hd : o.diameter = some di) (hh : o.hazardous = some hz) :
    (hz = true → o.strDisplay fmt =
      .ok ("NEO " ++ nameDisp nm ++ " has a diameter of " ++ fmt di ++
           " km and is potentially hazardous."))
    ∧ (hz = false → o.strDisplay fmt =
      .ok ("NEO " ++ nameDisp nm ++ " has a diameter of " ++ fmt di ++
           " km and is not potentially hazardous."))
    ∧ ("NEO " ++ nameDisp nm ++ " has a diameter of " ++ fmt di ++
        " km and is potentially hazardous.") ≠
      ("NEO " ++ nameDisp nm ++ " has a diameter of " ++ fmt di ++
        " km and is not potentially hazardous.") := by
  refine ⟨?_, ?_, ?_⟩
  · intro h1; simp [NearEarthObject.strDisplay, hn, hd, hh, h1]
  · intro h1; simp [NearEarthObject.strDisplay, hn, hd, hh, h1]
  · intro h
    have h2 := congrArg String.length h
    simp only [String.length_append] at h2
    have e1 : (" km and is potentially hazardous." : String).length = 33 := by decide
    have e2 : (" km and is not potentially hazardous." : String).length = 37 := by decide
    rw [e1, e2] at h2
    omega

/-- C8, witness: the display templates evaluated on the hazardous
Apophis-like object. -/
theorem neoDisplay_templates_witness :
    (neoW8.name = some (some "Apophis")
      ∧ neoW8.diameter = some (.val (mkRat 17 50))
      ∧ neoW8.hazardous = some true)
    ∧ ((true = true → neoW8.strDisplay rnd0 =
        .ok ("NEO " ++ nameDisp (some "Apophis") ++ " has a diameter of " ++
             rnd0 (.val (mkRat 17 50)) ++ " km and is potentially hazardous."))
    ∧ (true = false → neoW8.strDisplay rnd0 =
        .ok ("NEO " ++ nameDisp (some "Apophis") ++ " has a diameter of " ++
             rnd0 (.val (mkRat 17 50)) ++ " km and is not potentially hazardous."))
    ∧ ("NEO " ++ nameDisp (some "Apophis") ++ " has a diameter of " ++
        rnd0 (.val (mkRat 17 50)) ++ " km and is potentially hazardous.") ≠
      ("NEO " ++ nameDisp (some "Apophis") ++ " has a diameter of " ++
        rnd0 (.val (mkRat 17 50)) ++ " km and is not potentially hazardous.")) :=
  ⟨⟨by decide, by decide, by decide⟩,
   neoDisplay_templates rnd0 neoW8 (some "Apophis") (.val (mkRat 17 50)) true
     (by decide) (by decide) (by decide)⟩

/-- C9, confirmed: any row carrying, under a key lowering to name or
diameter, a raw value on which `len` is undefined makes the
`NearEarthObject` constructor fail with the uncaught `TypeError` raised
by the emptiness check, instead of completing. -/
theorem lenCheck_nonString_fails (fp : String → Option PyFloat)
    (info : List (String × PyVal)) (k : String) (v : PyVal)
    (hm : (k, v) ∈ info) (hk : strLower k = "name" ∨ strLower k = "diameter")
    (hv : pyLen v = .error .typeErr) :
    neoInit fp info = .error .typeErr :=
  foldNeo_badLen fp info (neoEmpty, []) k v hm hk hv

/-- C9, witness: the length-check failure evaluated on a boolean name
value. -/
theorem lenCheck_nonString_fails_witness :
    ((("name", PyVal.vbool true) ∈ [(("name" : String), PyVal.vbool true)])
      ∧ (strLower "name" = "name" ∨ strLower "name" = "diameter")
      ∧ pyLen (PyVal.vbool true) = .error .typeErr)
    ∧ neoInit parseDec [(("name" : String), PyVal.vbool true)] = .error .typeErr :=
  ⟨⟨by decide, Or.inl (by decide), by decide⟩,
    lenCheck_nonString_fails parseDec [(("name" : String), PyVal.vbool true)]
      "name" (PyVal.vbool true) (by decide) (Or.inl (by decide)) (by decide)⟩

/-- C10, confirmed: processing a hazardous-flag entry never raises, for
any raw value and any intermediate constructor state: the value goes
through the total string coercion and `hazardous` is assigned exactly
the boolean (lower-cased value == y); the except branch of this field
is unreachable (no message is ever printed by it). -/
theorem hazardField_total (fp : String → Option PyFloat) (key : String) (value : PyVal)
    (h : strLower key = "pha") :
    (∀ acc : NearEarthObject × List String,
      neoStep fp acc (key, value) =
        .ok ({ acc.1 with hazardous := some (strLower (pyStr value) == "y") }, acc.2))
    ∧ neoInit fp [(key, value)] =
        .ok ({ neoEmpty with hazardous := some (strLower (pyStr value) == "y") }, []) := by
  constructor
  · intro acc
    exact neoStep_pha fp acc key value h
  · unfold neoInit
    rw [List.foldlM_cons, neoStep_pha fp (neoEmpty, []) key value h, bindOk,
      List.foldlM_nil]
    rfl

/-- C10, witness: the hazard-field totality evaluated on the upper-case
key PHA carrying Python None. -/
theorem hazardField_total_witness :
    (strLower "PHA" = "pha")
    ∧ neoInit parseDec [(("PHA" : String), PyVal.vnone)] =
        .ok ({ neoEmpty with hazardous := some (strLower (pyStr PyVal.vnone) == "y") }, []) :=
  ⟨by decide, (hazardField_total parseDec "PHA" PyVal.vnone (by decide)).2⟩

end NeoModels
